import Mathlib

/-
  Verification of the per-robot actor supervision model of the `supervisor`
  repository (src/src/robot/drone/task.rs and src/src/robot/pipuck/task.rs).

  The asynchronous Rust code is shallowly embedded as executable step
  functions: each `tokio::select!` loop body becomes a function from the
  task's local state and the event that fired to the successor state, the
  list of observable effects (channel sends, reply-slot fulfilments,
  broadcast updates) and an exit indicator.  Outcomes of external I/O
  (probe results, `write_outputs` results, whether a oneshot receiver is
  still alive) are inputs of the corresponding events.
-/

namespace Supervisor

/- ------------------------------------------------------------------
   Health probe streams.

   drone/task.rs: `xbee_link_margin_stream`, `xbee_pin_states_stream` and
   `fernbedienung_link_strength_stream` share one shape, differing only in
   the probed request and the reading type, which we keep as a type
   parameter `R`:

     let mut attempts: u8 = 0;
     loop {
         let t = timeout(500ms, probe()).await ...;
         match t {
             Ok(response) => { attempts = 0; yield Ok(response); },
             Err(error) => match attempts {
                 0..=2 => attempts += 1,
                 _ => yield Err(error)
             }
         }
     }

   One iteration of the generator loop consumes one probe attempt; we model
   a finite run of the infinite stream by the list of attempt outcomes.
   ------------------------------------------------------------------ -/

/-- Outcome of a single timed probe attempt (`Ok(response)` or a
timeout/transport error). -/
inductive ProbeAttempt (R : Type) : Type
  | success (reading : R)
  | failure
deriving DecidableEq

/-- One iteration of the drone probe-stream loop: given the current value of
`attempts` and the attempt outcome, the new value of `attempts` and the item
yielded by the stream for this iteration, if any. -/
def probeStreamStep {R : Type} (attempts : Nat) :
    ProbeAttempt R → Nat × Option (Except Unit R)
  | ProbeAttempt.success reading => (0, some (Except.ok reading))
  | ProbeAttempt.failure =>
      if attempts ≤ 2 then (attempts + 1, none)
      else (attempts, some (Except.error ()))

/-- Items yielded by a drone probe stream over a finite run of attempts,
starting from a given `attempts` counter. -/
def runProbeStream {R : Type} (attempts : Nat) :
    List (ProbeAttempt R) → List (Except Unit R)
  | [] => []
  | a :: rest =>
      match probeStreamStep attempts a with
      | (attempts', none) => runProbeStream attempts' rest
      | (attempts', some item) => item :: runProbeStream attempts' rest

/-- Value of the `attempts` counter after a finite run of attempts. -/
def probeStreamAttemptsAfter {R : Type} (attempts : Nat) :
    List (ProbeAttempt R) → Nat
  | [] => attempts
  | a :: rest => probeStreamAttemptsAfter (probeStreamStep attempts a).1 rest

/-- pipuck/task.rs `link_strength_stream`: no retry counter at all, every
attempt immediately yields its result (`Ok(strength)` or the stringified
error). -/
def pipuckLinkStrengthItem {R : Type} : ProbeAttempt R → Except Unit R
  | ProbeAttempt.success reading => Except.ok reading
  | ProbeAttempt.failure => Except.error ()

/-- Items yielded by the pipuck link-strength stream over a finite run. -/
def runPipuckLinkStrengthStream {R : Type} (attempts : List (ProbeAttempt R)) :
    List (Except Unit R) :=
  attempts.map pipuckLinkStrengthItem

theorem runProbeStream_replicate_failure (R : Type) :
    ∀ (N a : Nat), a ≤ 3 →
      runProbeStream a (List.replicate N (ProbeAttempt.failure : ProbeAttempt R)) =
        List.replicate (N - (3 - a)) (Except.error ()) := by
  intro N
  induction N with
  | zero => intro a _; simp [runProbeStream]
  | succ n ih =>
      intro a ha
      rw [List.replicate_succ]
      by_cases h : a ≤ 2
      · simp only [runProbeStream, probeStreamStep, if_pos h]
        rw [ih (a + 1) (by omega)]
        congr 1
        omega
      · have ha3 : a = 3 := by omega
        subst ha3
        simp only [runProbeStream, probeStreamStep, if_neg h]
        rw [ih 3 le_rfl, ← List.replicate_succ]
        congr 1

theorem runProbeStream_append {R : Type} (a : Nat)
    (l1 l2 : List (ProbeAttempt R)) :
    runProbeStream a (l1 ++ l2) =
      runProbeStream a l1 ++ runProbeStream (probeStreamAttemptsAfter a l1) l2 := by
  induction l1 generalizing a with
  | nil => simp [runProbeStream, probeStreamAttemptsAfter]
  | cons x rest ih =>
      rw [List.cons_append, runProbeStream, probeStreamAttemptsAfter]
      cases hs : probeStreamStep a x with
      | mk a' item =>
          cases item with
          | none => simp only [runProbeStream, hs, ih]
          | some i => simp only [runProbeStream, hs, ih, List.cons_append]

/-- Claim C1 counterexample: 3 consecutive probe failures from a fresh
counter yield no item at all (the claim demands exactly one error after the
3rd consecutive failure); 5 consecutive failures yield two errors (the claim
demands the stream terminate after one error and never produce again); and a
single failure of the pipuck link-strength stream immediately yields an
error (the claim demands silence below 3 consecutive failures). -/
theorem C1_probe_counterexample :
    runProbeStream 0
        (List.replicate 3 (ProbeAttempt.failure : ProbeAttempt Int)) = [] ∧
    runProbeStream 0
        (List.replicate 5 (ProbeAttempt.failure : ProbeAttempt Int)) =
      [Except.error (), Except.error ()] ∧
    runPipuckLinkStrengthStream [(ProbeAttempt.failure : ProbeAttempt Int)] =
      [Except.error ()] := by
  refine ⟨rfl, rfl, rfl⟩

/-- Claim C1 (amended): for the drone probe streams, a run of N consecutive
failures from a fresh counter yields nothing while N ≤ 3 and yields one
error per failure from the 4th consecutive failure onwards (N - 3 errors in
total); the stream never terminates — after any finite run it is still
ready to process further attempts (append law).  The pipuck link-strength
stream applies no retry: every attempt yields an item, a failure yielding an
error immediately. -/
theorem C1_probe_amended (N a : Nat) (l1 l2 : List (ProbeAttempt Int)) :
    runProbeStream 0
        (List.replicate N (ProbeAttempt.failure : ProbeAttempt Int)) =
      List.replicate (N - 3) (Except.error ()) ∧
    runProbeStream a (l1 ++ l2) =
      runProbeStream a l1 ++ runProbeStream (probeStreamAttemptsAfter a l1) l2 ∧
    runPipuckLinkStrengthStream
        (List.replicate N (ProbeAttempt.failure : ProbeAttempt Int)) =
      List.replicate N (Except.error ()) ∧
    (runPipuckLinkStrengthStream l1).length = l1.length := by
  refine ⟨?_, runProbeStream_append a l1 l2, ?_, ?_⟩
  · have h := runProbeStream_replicate_failure Int N 0 (by omega)
    simpa using h
  · simp [runPipuckLinkStrengthStream, pipuckLinkStrengthItem]
  · simp [runPipuckLinkStrengthStream]

/-- Claim C8 counterexample: after 2 consecutive failures and 1 success, 3
further consecutive failures do NOT make the stream yield its error — the
run produces only the successful reading.  (A 4th further failure is
required, as the amended claim states.) -/
theorem C8_reset_counterexample :
    runProbeStream 0
        ([ProbeAttempt.failure, ProbeAttempt.failure,
          ProbeAttempt.success (7 : Int)] ++
         List.replicate 3 ProbeAttempt.failure) =
      [Except.ok 7] := by
  rfl

/-- Claim C8 (amended): a single successful probe attempt resets the
consecutive-failure counter to 0; hence after 2 consecutive failures
followed by 1 success, 4 further consecutive failures (not 2) are required
before the stream yields its error — 3 further failures still yield
nothing beyond the successful reading. -/
theorem C8_reset_amended (a : Nat) (r : Int) :
    (probeStreamStep a (ProbeAttempt.success r)).1 = 0 ∧
    runProbeStream 0
        ([ProbeAttempt.failure, ProbeAttempt.failure, ProbeAttempt.success r] ++
         List.replicate 3 ProbeAttempt.failure) = [Except.ok r] ∧
    runProbeStream 0
        ([ProbeAttempt.failure, ProbeAttempt.failure, ProbeAttempt.success r] ++
         List.replicate 4 ProbeAttempt.failure) =
      [Except.ok r, Except.error ()] := by
  refine ⟨rfl, rfl, rfl⟩

/- ------------------------------------------------------------------
   Battery voltage to percentage (drone/task.rs, `mavlink`, handling of
   MavMessage::BATTERY_STATUS):

     let mut battery_reading = data.voltages[0] as f32;
     battery_reading /= DRONE_BATT_NUM_CELLS;
     battery_reading -= DRONE_BATT_EMPTY_MV;
     battery_reading /= DRONE_BATT_FULL_MV - DRONE_BATT_EMPTY_MV;
     let battery_reading = (battery_reading.max(0.0).min(1.0) * 100.0) as i32;

   The f32 arithmetic is modelled exactly over ℚ.  All the constants are
   exactly representable; `as i32` truncates towards zero.
   ------------------------------------------------------------------ -/

def DRONE_BATT_FULL_MV : ℚ := 4050

def DRONE_BATT_EMPTY_MV : ℚ := 3500

def DRONE_BATT_NUM_CELLS : ℚ := 3

/-- Rust `as i32` on a float: truncation towards zero. -/
def ratTruncToInt (q : ℚ) : ℤ := if 0 ≤ q then ⌊q⌋ else ⌈q⌉

/-- The clamped normalized battery fraction computed by the code before the
final scaling and integer cast. -/
def batteryFraction (voltage0 : ℚ) : ℚ :=
  min (max ((voltage0 / DRONE_BATT_NUM_CELLS - DRONE_BATT_EMPTY_MV) /
      (DRONE_BATT_FULL_MV - DRONE_BATT_EMPTY_MV)) 0) 1

/-- Battery percentage as computed from the first cell-stack voltage (mV)
of a BATTERY_STATUS frame. -/
def batteryPercent (voltage0 : ℚ) : ℤ :=
  ratTruncToInt (batteryFraction voltage0 * 100)

theorem batteryFraction_nonneg (voltage0 : ℚ) : 0 ≤ batteryFraction voltage0 :=
  le_min (le_max_right _ _) zero_le_one

theorem batteryFraction_le_one (voltage0 : ℚ) : batteryFraction voltage0 ≤ 1 :=
  min_le_right _ _

theorem batteryPercent_eq_floor (voltage0 : ℚ) :
    batteryPercent voltage0 = ⌊batteryFraction voltage0 * 100⌋ := by
  have h : (0 : ℚ) ≤ batteryFraction voltage0 * 100 :=
    mul_nonneg (batteryFraction_nonneg voltage0) (by norm_num)
  simp [batteryPercent, ratTruncToInt, h]

/-- Claim C7: the battery-voltage-to-percentage mapping is monotonically
non-decreasing in the measured voltage and clamped to [0, 100]; a per-cell
voltage (measured voltage over the 3 cells) at or below 3500 mV maps to 0,
at or above 4050 mV maps to 100, and voltages in between map linearly. -/
theorem C7_battery_percentage (v v1 v2 : ℚ) :
    (v1 ≤ v2 → batteryPercent v1 ≤ batteryPercent v2) ∧
    (0 ≤ batteryPercent v ∧ batteryPercent v ≤ 100) ∧
    (v / DRONE_BATT_NUM_CELLS ≤ 3500 → batteryPercent v = 0) ∧
    (4050 ≤ v / DRONE_BATT_NUM_CELLS → batteryPercent v = 100) ∧
    (3500 ≤ v / DRONE_BATT_NUM_CELLS → v / DRONE_BATT_NUM_CELLS ≤ 4050 →
      batteryPercent v = ⌊(v / DRONE_BATT_NUM_CELLS - 3500) * 100 / 550⌋) := by
  have hconst : DRONE_BATT_FULL_MV - DRONE_BATT_EMPTY_MV = 550 := by
    norm_num [DRONE_BATT_FULL_MV, DRONE_BATT_EMPTY_MV]
  refine ⟨?_, ⟨?_, ?_⟩, ?_, ?_, ?_⟩
  · intro h
    rw [batteryPercent_eq_floor, batteryPercent_eq_floor]
    apply Int.floor_le_floor
    have hf : batteryFraction v1 ≤ batteryFraction v2 := by
      unfold batteryFraction
      have h3 : (0 : ℚ) < DRONE_BATT_NUM_CELLS := by norm_num [DRONE_BATT_NUM_CELLS]
      have h550 : (0 : ℚ) < DRONE_BATT_FULL_MV - DRONE_BATT_EMPTY_MV := by
        rw [hconst]; norm_num
      gcongr
    gcongr
  · rw [batteryPercent_eq_floor]
    apply Int.floor_nonneg.mpr
    exact mul_nonneg (batteryFraction_nonneg v) (by norm_num)
  · rw [batteryPercent_eq_floor]
    have h1 : batteryFraction v * 100 ≤ 100 := by
      calc batteryFraction v * 100 ≤ 1 * 100 := by
            have := batteryFraction_le_one v
            gcongr
        _ = 100 := by norm_num
    calc ⌊batteryFraction v * 100⌋ ≤ ⌊(100 : ℚ)⌋ := Int.floor_le_floor h1
      _ = 100 := by norm_num
  · intro h
    rw [batteryPercent_eq_floor]
    have hr : (v / DRONE_BATT_NUM_CELLS - DRONE_BATT_EMPTY_MV) /
        (DRONE_BATT_FULL_MV - DRONE_BATT_EMPTY_MV) ≤ 0 := by
      rw [hconst]
      apply div_nonpos_of_nonpos_of_nonneg
      · simp only [DRONE_BATT_EMPTY_MV]; linarith
      · norm_num
    have : batteryFraction v = 0 := by
      unfold batteryFraction
      rw [max_eq_right hr, min_eq_left zero_le_one]
    rw [this]
    norm_num
  · intro h
    rw [batteryPercent_eq_floor]
    have hr : (1 : ℚ) ≤ (v / DRONE_BATT_NUM_CELLS - DRONE_BATT_EMPTY_MV) /
        (DRONE_BATT_FULL_MV - DRONE_BATT_EMPTY_MV) := by
      rw [hconst]
      rw [le_div_iff₀ (by norm_num : (0 : ℚ) < 550)]
      simp only [DRONE_BATT_EMPTY_MV]
      linarith
    have : batteryFraction v = 1 := by
      unfold batteryFraction
      rw [max_eq_left (le_trans zero_le_one hr), min_eq_right hr]
    rw [this]
    norm_num
  · intro hlo hhi
    rw [batteryPercent_eq_floor]
    have hr0 : (0 : ℚ) ≤ (v / DRONE_BATT_NUM_CELLS - DRONE_BATT_EMPTY_MV) /
        (DRONE_BATT_FULL_MV - DRONE_BATT_EMPTY_MV) := by
      rw [hconst]
      apply div_nonneg
      · simp only [DRONE_BATT_EMPTY_MV]; linarith
      · norm_num
    have hr1 : (v / DRONE_BATT_NUM_CELLS - DRONE_BATT_EMPTY_MV) /
        (DRONE_BATT_FULL_MV - DRONE_BATT_EMPTY_MV) ≤ 1 := by
      rw [hconst, div_le_one (by norm_num : (0 : ℚ) < 550)]
      simp only [DRONE_BATT_EMPTY_MV]
      linarith
    have : batteryFraction v =
        (v / DRONE_BATT_NUM_CELLS - DRONE_BATT_EMPTY_MV) /
          (DRONE_BATT_FULL_MV - DRONE_BATT_EMPTY_MV) := by
      unfold batteryFraction
      rw [max_eq_left hr0, min_eq_left hr1]
    rw [this, hconst]
    congr 1
    simp only [DRONE_BATT_EMPTY_MV]
    rw [div_mul_eq_mul_div]

/-- Claim C7 witness: the theorem applied at measured voltages 10500 mV
(per-cell 3500 mV, empty) and 12150 mV (per-cell 4050 mV, full). -/
theorem C7_battery_percentage_witness :
    batteryPercent 10500 ≤ batteryPercent 12150 ∧
    batteryPercent 10500 = 0 ∧ batteryPercent 12150 = 100 :=
  ⟨(C7_battery_percentage 0 10500 12150).1 (by norm_num),
   (C7_battery_percentage 10500 0 0).2.2.1
     (by norm_num [DRONE_BATT_NUM_CELLS]),
   (C7_battery_percentage 12150 0 0).2.2.2.1
     (by norm_num [DRONE_BATT_NUM_CELLS])⟩

/- ------------------------------------------------------------------
   Shared message types.  `TerminalAction`, `XbeeAction` and
   `FernbedienungAction` are declared in the crate's `robot` module (not
   under src/); their variants are reconstructed from their uses in
   drone/task.rs.  The `Update` enum lives in the external `shared` crate;
   its variants are likewise reconstructed from the sends in drone/task.rs.
   Addresses, channels, reply slots (oneshot senders) and descriptors are
   modelled by identifiers.
   ------------------------------------------------------------------ -/

inductive TerminalAction : Type
  | start
  | run (command : String)
  | stop
deriving DecidableEq

inductive XbeeAction : Type
  | setUpCorePower (enable : Bool)
  | setPixhawkPower (enable : Bool)
  | mavlink (action : TerminalAction)
deriving DecidableEq

inductive FernbedienungAction : Type
  | setCameraStream (enable : Bool)
  | halt
  | reboot
  | bash (action : TerminalAction)
  | uploadToTemporaryPath (files : List String)
  | getKernelMessages
  | identify
deriving DecidableEq

inductive Update : Type
  | xbeeSignal (margin : Int)
  | powerState (upcore pixhawk : Bool)
  | battery (level : Int)
  | bash (line : String)
  | camera (name : String) (ok : Bool)
  | fernbedienungSignal (strength : Int)
  | fernbedienungConnected (addr : Nat)
  | xbeeConnected (addr : Nat)
  | xbeeDisconnected
  | fernbedienungDisconnected
deriving DecidableEq

/- ------------------------------------------------------------------
   Drone Robot Actor (drone/task.rs, `pub async fn new`).

   The actor owns, per link kind, an `Option` command channel, an `Option`
   address and a pinned task slot (`futures::future::pending()` when no
   supervisor is associated; a supervisor future otherwise — we record the
   task's identity, `none` standing for the pending placeholder).  Fresh
   channel/task identities are drawn from a counter.
   ------------------------------------------------------------------ -/

structure DroneState : Type where
  fernbedienungTx : Option Nat
  fernbedienungAddr : Option Nat
  fernbedienungTask : Option Nat
  xbeeTx : Option Nat
  xbeeAddr : Option Nat
  xbeeTask : Option Nat
  nextId : Nat
deriving DecidableEq

/-- Mailbox messages of the drone actor (enum `Action` in drone/task.rs).
`receiverAlive` records whether the oneshot receiver of a `Subscribe` reply
slot is still alive, i.e. whether `callback.send(..)` returns `Ok`. -/
inductive DroneAction : Type
  | associateFernbedienung (addr : Nat)
  | associateXbee (addr : Nat)
  | executeXbeeAction (callback : Nat) (action : XbeeAction)
  | executeFernbedienungAction (callback : Nat) (action : FernbedienungAction)
  | subscribe (callback : Nat) (receiverAlive : Bool)
  | uploadExperiment (callback : Nat) (files : List String)
  | startExperiment (callback : Nat)
  | stopExperiment
deriving DecidableEq

/-- The branches of the actor's `tokio::select!`: a mailbox message, the
mailbox being closed (`recv()` returning `None`, which merely disables that
branch), or the completion of a pinned link-supervisor task. -/
inductive DroneEvent : Type
  | mailbox (action : DroneAction)
  | mailboxClosed
  | fernbedienungCompleted
  | xbeeCompleted (result : Except Unit Unit)

/-- Observable effects of one drone-actor loop iteration. -/
inductive DroneEffect : Type
  | sendUpdate (u : Update)
  | replyResult (callback : Nat) (ok : Bool)
  | forwardXbee (channel : Nat) (callback : Nat) (action : XbeeAction)
  | forwardFernbedienung (channel : Nat) (callback : Nat)
      (action : FernbedienungAction)
  | replySubscription (callback : Nat)
deriving DecidableEq

structure DroneStep : Type where
  state : DroneState
  effects : List DroneEffect
  exits : Bool
deriving DecidableEq

/-- One iteration of the drone actor's main loop (drone/task.rs,
`new`). -/
def droneStep (s : DroneState) : DroneEvent → DroneStep
  | DroneEvent.mailbox (DroneAction.associateFernbedienung addr) =>
      { state := { s with
          fernbedienungTx := some s.nextId,
          fernbedienungAddr := some addr,
          fernbedienungTask := some s.nextId,
          nextId := s.nextId + 1 },
        effects := [DroneEffect.sendUpdate (Update.fernbedienungConnected addr)],
        exits := false }
  | DroneEvent.mailbox (DroneAction.associateXbee addr) =>
      { state := { s with
          xbeeTx := some s.nextId,
          xbeeAddr := some addr,
          xbeeTask := some s.nextId,
          nextId := s.nextId + 1 },
        effects := [DroneEffect.sendUpdate (Update.xbeeConnected addr)],
        exits := false }
  | DroneEvent.mailbox (DroneAction.executeXbeeAction callback action) =>
      match s.xbeeTx with
      | some channel =>
          { state := s,
            effects := [DroneEffect.forwardXbee channel callback action],
            exits := false }
      | none =>
          { state := s,
            effects := [DroneEffect.replyResult callback false],
            exits := false }
  | DroneEvent.mailbox (DroneAction.executeFernbedienungAction callback action) =>
      match s.fernbedienungTx with
      | some channel =>
          { state := s,
            effects := [DroneEffect.forwardFernbedienung channel callback action],
            exits := false }
      | none =>
          { state := s,
            effects := [DroneEffect.replyResult callback false],
            exits := false }
  | DroneEvent.mailbox (DroneAction.subscribe callback receiverAlive) =>
      if receiverAlive then
        { state := s,
          effects := DroneEffect.replySubscription callback ::
            ((s.xbeeAddr.elim []
                fun a => [DroneEffect.sendUpdate (Update.xbeeConnected a)]) ++
             (s.fernbedienungAddr.elim []
                fun a => [DroneEffect.sendUpdate (Update.fernbedienungConnected a)])),
          exits := false }
      else
        { state := s, effects := [], exits := false }
  | DroneEvent.mailbox (DroneAction.uploadExperiment callback files) =>
      match s.fernbedienungTx with
      | some channel =>
          { state := s,
            effects := [DroneEffect.forwardFernbedienung channel callback
              (FernbedienungAction.uploadToTemporaryPath files)],
            exits := false }
      | none => { state := s, effects := [], exits := false }
  | DroneEvent.mailbox (DroneAction.startExperiment _) =>
      { state := s, effects := [], exits := false }
  | DroneEvent.mailbox DroneAction.stopExperiment =>
      { state := s, effects := [], exits := false }
  | DroneEvent.mailboxClosed =>
      { state := s, effects := [], exits := false }
  | DroneEvent.fernbedienungCompleted =>
      { state := { s with
          fernbedienungTx := none,
          fernbedienungAddr := none,
          fernbedienungTask := none },
        effects := [DroneEffect.sendUpdate Update.fernbedienungDisconnected],
        exits := false }
  | DroneEvent.xbeeCompleted _ =>
      { state := { s with
          xbeeTx := none,
          xbeeAddr := none,
          xbeeTask := none },
        effects := [DroneEffect.sendUpdate Update.xbeeDisconnected],
        exits := false }

/-- The live link-supervisor tasks of a given kind held by the actor:
the pinned slot holds either the pending placeholder or exactly one
supervisor future. -/
def liveXbeeSupervisors (s : DroneState) : List Nat := s.xbeeTask.toList

def liveFernbedienungSupervisors (s : DroneState) : List Nat :=
  s.fernbedienungTask.toList

/-- Connectivity updates among the actor's effects. -/
def DroneEffect.isConnectivityUpdate : DroneEffect → Bool
  | DroneEffect.sendUpdate (Update.xbeeConnected _) => true
  | DroneEffect.sendUpdate (Update.fernbedienungConnected _) => true
  | DroneEffect.sendUpdate Update.xbeeDisconnected => true
  | DroneEffect.sendUpdate Update.fernbedienungDisconnected => true
  | _ => false

/- ------------------------------------------------------------------
   Pi-Puck Robot Actor (pipuck/task.rs, `pub async fn new`).
   ------------------------------------------------------------------ -/

/-- Update variants reconstructed from the sends in pipuck/task.rs; the
pipuck code never sends any connectivity event. -/
inductive PipuckUpdate : Type
  | camera (name : String) (ok : Bool)
  | fernbedienungSignal (strength : Except Unit Int)
  | descriptor (d : Nat)

inductive PipuckRequest : Type
  | associateFernbedienung (addr : Nat)
  | subscribe (callback : Nat) (receiverAlive : Bool)
  | getDescriptor (callback : Nat)
  | startExperiment (callback : Nat)
  | stopExperiment
deriving DecidableEq

inductive PipuckEvent : Type
  | mailbox (request : PipuckRequest)
  | mailboxClosed
  | fernbedienungCompleted (result : Except Unit Unit)

inductive PipuckEffect : Type
  | sendUpdate (u : PipuckUpdate)
  | replySubscription (callback : Nat)
  | replyDescriptor (callback : Nat) (d : Nat)

structure PipuckState : Type where
  descriptor : Nat
  fernbedienungTx : Option Nat
  fernbedienungTask : Option Nat
  nextId : Nat
deriving DecidableEq

structure PipuckStep : Type where
  state : PipuckState
  effects : List PipuckEffect
  exits : Bool

/-- One iteration of the pipuck actor's main loop (pipuck/task.rs,
`new`). -/
def pipuckStep (s : PipuckState) : PipuckEvent → PipuckStep
  | PipuckEvent.mailbox (PipuckRequest.associateFernbedienung _) =>
      { state := { s with
          fernbedienungTx := some s.nextId,
          fernbedienungTask := some s.nextId,
          nextId := s.nextId + 1 },
        effects := [],
        exits := false }
  | PipuckEvent.mailbox (PipuckRequest.subscribe callback receiverAlive) =>
      if receiverAlive then
        { state := s,
          effects := [PipuckEffect.replySubscription callback,
            PipuckEffect.sendUpdate (PipuckUpdate.descriptor s.descriptor)],
          exits := false }
      else
        { state := s, effects := [], exits := false }
  | PipuckEvent.mailbox (PipuckRequest.getDescriptor callback) =>
      { state := s,
        effects := [PipuckEffect.replyDescriptor callback s.descriptor],
        exits := false }
  | PipuckEvent.mailbox (PipuckRequest.startExperiment _) =>
      { state := s, effects := [], exits := false }
  | PipuckEvent.mailbox PipuckRequest.stopExperiment =>
      { state := s, effects := [], exits := false }
  | PipuckEvent.mailboxClosed =>
      { state := s, effects := [], exits := false }
  | PipuckEvent.fernbedienungCompleted _ =>
      { state := { s with fernbedienungTx := none, fernbedienungTask := none },
        effects := [],
        exits := false }

/-- Claim C2: after any Associate request for a link kind, exactly one live
Link Supervisor task exists for that link kind — the newly spawned one —
and any previously associated supervisor task of that kind is no longer
live; the other kind's supervisor is untouched.  The hypotheses say that
already-live task identities are older than the fresh one. -/
theorem C2_associate_replaces_supervisor (s : DroneState) (addr : Nat)
    (hx : ∀ t, s.xbeeTask = some t → t < s.nextId)
    (hf : ∀ t, s.fernbedienungTask = some t → t < s.nextId) :
    (liveXbeeSupervisors
        (droneStep s (DroneEvent.mailbox (DroneAction.associateXbee addr))).state =
       [s.nextId] ∧
     (∀ t, s.xbeeTask = some t →
       t ∉ liveXbeeSupervisors
         (droneStep s (DroneEvent.mailbox (DroneAction.associateXbee addr))).state) ∧
     (droneStep s (DroneEvent.mailbox
         (DroneAction.associateXbee addr))).state.fernbedienungTask =
       s.fernbedienungTask) ∧
    (liveFernbedienungSupervisors
        (droneStep s (DroneEvent.mailbox
          (DroneAction.associateFernbedienung addr))).state = [s.nextId] ∧
     (∀ t, s.fernbedienungTask = some t →
       t ∉ liveFernbedienungSupervisors
         (droneStep s (DroneEvent.mailbox
           (DroneAction.associateFernbedienung addr))).state) ∧
     (droneStep s (DroneEvent.mailbox
         (DroneAction.associateFernbedienung addr))).state.xbeeTask =
       s.xbeeTask) := by
  refine ⟨⟨rfl, ?_, rfl⟩, rfl, ?_, rfl⟩
  · intro t ht
    have := hx t ht
    simp only [droneStep, liveXbeeSupervisors, Option.toList_some, List.mem_singleton]
    omega
  · intro t ht
    have := hf t ht
    simp only [droneStep, liveFernbedienungSupervisors, Option.toList_some,
      List.mem_singleton]
    omega

/-- Claim C2 witness: re-associating the xbee link while supervisor task 0
is live leaves exactly the new supervisor task 1 live. -/
theorem C2_associate_replaces_supervisor_witness :
    liveXbeeSupervisors
        (droneStep
          { fernbedienungTx := none, fernbedienungAddr := none,
            fernbedienungTask := none, xbeeTx := some 0, xbeeAddr := some 9,
            xbeeTask := some 0, nextId := 1 }
          (DroneEvent.mailbox (DroneAction.associateXbee 9))).state = [1] ∧
    (0 : Nat) ∉ liveXbeeSupervisors
        (droneStep
          { fernbedienungTx := none, fernbedienungAddr := none,
            fernbedienungTask := none, xbeeTx := some 0, xbeeAddr := some 9,
            xbeeTask := some 0, nextId := 1 }
          (DroneEvent.mailbox (DroneAction.associateXbee 9))).state := by
  have h := C2_associate_replaces_supervisor
    { fernbedienungTx := none, fernbedienungAddr := none,
      fernbedienungTask := none, xbeeTx := some 0, xbeeAddr := some 9,
      xbeeTask := some 0, nextId := 1 } 9
    (by intro t ht; injection ht with h; show t < 1; omega)
    (by intro t ht; exact absurd ht (by simp))
  exact ⟨h.1.1, h.1.2.1 0 rfl⟩

/-- Claim C3: an Execute request against an unassociated link kind is
answered in the same loop iteration with a single error on its reply slot —
no forwarding, no other effect, no state change; with the link associated
the payload and reply slot are forwarded to that supervisor's channel
instead. -/
theorem C3_execute_unassociated_immediate_error (s : DroneState)
    (callback : Nat) (xa : XbeeAction) (fa : FernbedienungAction) :
    (s.xbeeTx = none →
      droneStep s (DroneEvent.mailbox (DroneAction.executeXbeeAction callback xa)) =
        { state := s, effects := [DroneEffect.replyResult callback false],
          exits := false }) ∧
    (∀ channel, s.xbeeTx = some channel →
      droneStep s (DroneEvent.mailbox (DroneAction.executeXbeeAction callback xa)) =
        { state := s, effects := [DroneEffect.forwardXbee channel callback xa],
          exits := false }) ∧
    (s.fernbedienungTx = none →
      droneStep s (DroneEvent.mailbox
          (DroneAction.executeFernbedienungAction callback fa)) =
        { state := s, effects := [DroneEffect.replyResult callback false],
          exits := false }) ∧
    (∀ channel, s.fernbedienungTx = some channel →
      droneStep s (DroneEvent.mailbox
          (DroneAction.executeFernbedienungAction callback fa)) =
        { state := s, effects := [DroneEffect.forwardFernbedienung channel callback fa],
          exits := false }) := by
  refine ⟨?_, ?_, ?_, ?_⟩
  · intro h; simp [droneStep, h]
  · intro channel h; simp [droneStep, h]
  · intro h; simp [droneStep, h]
  · intro channel h; simp [droneStep, h]

/-- Claim C3 witness: with neither link associated, an xbee Execute request
gets an immediate error reply, and with the xbee link associated on channel
4 the same request is forwarded there. -/
theorem C3_execute_unassociated_immediate_error_witness :
    droneStep
        { fernbedienungTx := none, fernbedienungAddr := none,
          fernbedienungTask := none, xbeeTx := none, xbeeAddr := none,
          xbeeTask := none, nextId := 0 }
        (DroneEvent.mailbox (DroneAction.executeXbeeAction 3
          (XbeeAction.setUpCorePower true))) =
      { state := { fernbedienungTx := none, fernbedienungAddr := none,
                   fernbedienungTask := none, xbeeTx := none, xbeeAddr := none,
                   xbeeTask := none, nextId := 0 },
        effects := [DroneEffect.replyResult 3 false], exits := false } ∧
    droneStep
        { fernbedienungTx := none, fernbedienungAddr := none,
          fernbedienungTask := none, xbeeTx := some 4, xbeeAddr := some 9,
          xbeeTask := some 4, nextId := 5 }
        (DroneEvent.mailbox (DroneAction.executeXbeeAction 3
          (XbeeAction.setUpCorePower true))) =
      { state := { fernbedienungTx := none, fernbedienungAddr := none,
                   fernbedienungTask := none, xbeeTx := some 4, xbeeAddr := some 9,
                   xbeeTask := some 4, nextId := 5 },
        effects := [DroneEffect.forwardXbee 4 3 (XbeeAction.setUpCorePower true)],
        exits := false } :=
  ⟨(C3_execute_unassociated_immediate_error _ 3 (XbeeAction.setUpCorePower true)
      FernbedienungAction.halt).1 rfl,
   (C3_execute_unassociated_immediate_error _ 3 (XbeeAction.setUpCorePower true)
      FernbedienungAction.halt).2.1 4 rfl⟩

/-- Claim C6 counterexample: the pipuck actor, with its companion link
associated, answers a Subscribe request by fulfilling the reply slot and
then re-sending only its descriptor update — no connectivity Update for the
associated link kind is emitted (the pipuck code has no connectivity
updates at all). -/
theorem C6_subscribe_counterexample :
    (pipuckStep
        { descriptor := 0, fernbedienungTx := some 0, fernbedienungTask := some 0,
          nextId := 1 }
        (PipuckEvent.mailbox (PipuckRequest.subscribe 5 true))).effects =
      [PipuckEffect.replySubscription 5,
       PipuckEffect.sendUpdate (PipuckUpdate.descriptor 0)] := by
  rfl

/-- Claim C6 (amended): the drone actor answers Subscribe by fulfilling the
reply slot and then — only if fulfilment succeeded — re-emitting exactly
one connectivity Update per currently associated link kind (xbee first,
then fernbedienung), leaving its state unchanged; the pipuck actor instead
re-emits its descriptor update after a successful fulfilment and no
connectivity update. -/
theorem C6_subscribe_amended (s : DroneState) (ps : PipuckState)
    (callback pcallback : Nat) :
    (droneStep s (DroneEvent.mailbox (DroneAction.subscribe callback true))).effects =
      DroneEffect.replySubscription callback ::
        ((s.xbeeAddr.elim []
            fun a => [DroneEffect.sendUpdate (Update.xbeeConnected a)]) ++
         (s.fernbedienungAddr.elim []
            fun a => [DroneEffect.sendUpdate (Update.fernbedienungConnected a)])) ∧
    ((droneStep s (DroneEvent.mailbox
        (DroneAction.subscribe callback true))).effects.countP
      DroneEffect.isConnectivityUpdate) =
      ((if s.xbeeAddr.isSome then 1 else 0) +
       (if s.fernbedienungAddr.isSome then 1 else 0)) ∧
    (droneStep s (DroneEvent.mailbox (DroneAction.subscribe callback true))).state = s ∧
    (droneStep s (DroneEvent.mailbox (DroneAction.subscribe callback false))).effects =
      [] ∧
    (pipuckStep ps (PipuckEvent.mailbox
        (PipuckRequest.subscribe pcallback true))).effects =
      [PipuckEffect.replySubscription pcallback,
       PipuckEffect.sendUpdate (PipuckUpdate.descriptor ps.descriptor)] ∧
    (pipuckStep ps (PipuckEvent.mailbox
        (PipuckRequest.subscribe pcallback false))).effects = [] := by
  refine ⟨by simp [droneStep], ?_, by simp [droneStep], by simp [droneStep],
    by simp [pipuckStep], by simp [pipuckStep]⟩
  cases hx : s.xbeeAddr <;> cases hfb : s.fernbedienungAddr <;>
    simp [droneStep, hx, hfb, List.countP_cons, DroneEffect.isConnectivityUpdate]

/-- Claim C9 counterexample: a closed mailbox does not terminate the drone
actor — the branch is merely disabled: the state (including a live xbee
supervisor) is unchanged, no effect is produced and the loop does not exit;
likewise for the pipuck actor. -/
theorem C9_mailbox_closed_counterexample :
    droneStep
        { fernbedienungTx := none, fernbedienungAddr := none,
          fernbedienungTask := none, xbeeTx := some 0, xbeeAddr := some 7,
          xbeeTask := some 0, nextId := 1 }
        DroneEvent.mailboxClosed =
      { state := { fernbedienungTx := none, fernbedienungAddr := none,
                   fernbedienungTask := none, xbeeTx := some 0, xbeeAddr := some 7,
                   xbeeTask := some 0, nextId := 1 },
        effects := [], exits := false } ∧
    pipuckStep
        { descriptor := 0, fernbedienungTx := some 0, fernbedienungTask := some 0,
          nextId := 1 }
        PipuckEvent.mailboxClosed =
      { state := { descriptor := 0, fernbedienungTx := some 0,
                   fernbedienungTask := some 0, nextId := 1 },
        effects := [], exits := false } := by
  exact ⟨rfl, rfl⟩

/-- Claim C9 (amended): the actor loop has no exit path at all — no event,
the closed mailbox included, makes a loop iteration break; on a closed
mailbox the state is unchanged and live Link Supervisors are not dropped.
(The `Some(action) = rx.recv()` select branch is simply disabled when the
mailbox closes, and the pinned pending placeholders never complete, so the
actor suspends forever instead of exiting.) -/
theorem C9_actor_never_exits_amended (s : DroneState) (e : DroneEvent)
    (ps : PipuckState) (pe : PipuckEvent) :
    (droneStep s e).exits = false ∧
    (pipuckStep ps pe).exits = false ∧
    droneStep s DroneEvent.mailboxClosed =
      { state := s, effects := [], exits := false } ∧
    pipuckStep ps PipuckEvent.mailboxClosed =
      { state := ps, effects := [], exits := false } := by
  refine ⟨?_, ?_, rfl, rfl⟩
  · cases e with
    | mailbox a =>
        cases a <;>
          simp only [droneStep] <;>
          first
            | rfl
            | (rename_i x; cases x <;> simp [droneStep])
            | (split <;> rfl)
    | mailboxClosed => rfl
    | fernbedienungCompleted => rfl
    | xbeeCompleted r => rfl
  · cases pe with
    | mailbox r =>
        cases r <;> first | rfl | (simp only [pipuckStep]; split <;> rfl)
    | mailboxClosed => rfl
    | fernbedienungCompleted r => rfl

/- ------------------------------------------------------------------
   Xbee Link Supervisor (drone/task.rs, `async fn xbee`): after one-time
   pin/serial configuration it multiplexes the link-margin stream, the
   pin-states stream, its command channel and the pinned mavlink bridge
   task.  The supervisor's state is the current mavlink command channel
   (replaced wholesale on bridge restart); fresh channel identities come
   from a counter.
   ------------------------------------------------------------------ -/

/-- Xbee digital pins named in drone/task.rs. -/
inductive Pin : Type
  | DOUT | DIO6 | DIO7 | DIN | DIO0 | DIO1 | DIO2 | DIO3 | DIO4 | DIO11 | DIO12
deriving DecidableEq

structure XbeeSupState : Type where
  mavlinkTx : Nat
  nextId : Nat
deriving DecidableEq

/-- The branches of the xbee supervisor's `tokio::select!`.  Command events
carry the outcome of the external I/O they trigger (`ioOk` for
`write_outputs`, `sendOk` for the forward onto the mavlink channel). -/
inductive XbeeSupEvent : Type
  | linkMargin (item : Except Unit Int)
  | pinStates (item : Except Unit (List (Pin × Bool)))
  | command (callback : Nat) (action : XbeeAction) (ioOk : Bool)
  | mailboxClosed
  | mavlinkCompleted (result : Except Unit Unit)

inductive XbeeSupEffect : Type
  | sendUpdate (u : Update)
  | replyResult (callback : Nat) (ok : Bool)
  | forwardMavlink (channel : Nat) (callback : Nat) (action : TerminalAction)
deriving DecidableEq

structure XbeeSupStep : Type where
  state : XbeeSupState
  effects : List XbeeSupEffect
  exit : Option (Except Unit Unit)

/-- One iteration of the xbee supervisor's main loop.  `exit = some r`
means the `async fn xbee` returns with result `r` (via `?` on a probe error
or `break Ok(())` on a closed mailbox). -/
def xbeeSupStep (s : XbeeSupState) : XbeeSupEvent → XbeeSupStep
  | XbeeSupEvent.linkMargin (Except.ok margin) =>
      { state := s,
        effects := [XbeeSupEffect.sendUpdate (Update.xbeeSignal margin)],
        exit := none }
  | XbeeSupEvent.linkMargin (Except.error e) =>
      { state := s, effects := [], exit := some (Except.error e) }
  | XbeeSupEvent.pinStates (Except.ok states) =>
      match states.lookup Pin.DIO11, states.lookup Pin.DIO12 with
      | some upcore, some pixhawk =>
          { state := s,
            effects := [XbeeSupEffect.sendUpdate (Update.powerState upcore pixhawk)],
            exit := none }
      | _, _ => { state := s, effects := [], exit := none }
  | XbeeSupEvent.pinStates (Except.error e) =>
      { state := s, effects := [], exit := some (Except.error e) }
  | XbeeSupEvent.command callback (XbeeAction.setUpCorePower _) ioOk =>
      { state := s, effects := [XbeeSupEffect.replyResult callback ioOk],
        exit := none }
  | XbeeSupEvent.command callback (XbeeAction.setPixhawkPower _) ioOk =>
      { state := s, effects := [XbeeSupEffect.replyResult callback ioOk],
        exit := none }
  | XbeeSupEvent.command callback (XbeeAction.mavlink action) sendOk =>
      if sendOk then
        { state := s,
          effects := [XbeeSupEffect.forwardMavlink s.mavlinkTx callback action],
          exit := none }
      else
        { state := s, effects := [XbeeSupEffect.replyResult callback false],
          exit := none }
  | XbeeSupEvent.mailboxClosed =>
      { state := s, effects := [], exit := some (Except.ok ()) }
  | XbeeSupEvent.mavlinkCompleted _ =>
      { state := { mavlinkTx := s.nextId, nextId := s.nextId + 1 },
        effects := [], exit := none }

/- ------------------------------------------------------------------
   Fernbedienung Link Supervisor (drone/task.rs, `async fn fernbedienung`):
   multiplexes camera streams, the link-strength stream, its command
   channel and the pinned bash bridge task.
   ------------------------------------------------------------------ -/

def DRONE_CAMERAS_CONFIG : List String :=
  ["/dev/camera0", "/dev/camera1", "/dev/camera2", "/dev/camera3"]

structure FernSupState : Type where
  bashTx : Nat
  cameras : List String
  nextId : Nat
deriving DecidableEq

inductive FernSupEvent : Type
  | cameraFrame (camera : String) (ok : Bool)
  | linkStrength (item : Except Unit Int)
  | command (callback : Nat) (action : FernbedienungAction) (ioOk : Bool)
  | mailboxClosed
  | bashCompleted

inductive FernSupEffect : Type
  | sendUpdate (u : Update)
  | replyResult (callback : Nat) (ok : Bool)
  | forwardBash (channel : Nat) (callback : Nat) (action : TerminalAction)
deriving DecidableEq

/-- `exit = true` means the `async fn fernbedienung` returns (its only
break paths are a link-strength probe error and a closed mailbox);
`panics = true` records the `todo!()` reached by UploadToTemporaryPath. -/
structure FernSupStep : Type where
  state : FernSupState
  effects : List FernSupEffect
  exit : Bool
  panics : Bool
deriving DecidableEq

/-- One iteration of the fernbedienung supervisor's main loop. -/
def fernSupStep (s : FernSupState) : FernSupEvent → FernSupStep
  | FernSupEvent.cameraFrame camera ok =>
      { state := s,
        effects := [FernSupEffect.sendUpdate (Update.camera camera ok)],
        exit := false, panics := false }
  | FernSupEvent.linkStrength (Except.ok strength) =>
      { state := s,
        effects := [FernSupEffect.sendUpdate (Update.fernbedienungSignal strength)],
        exit := false, panics := false }
  | FernSupEvent.linkStrength (Except.error _) =>
      { state := s, effects := [], exit := true, panics := false }
  | FernSupEvent.command callback (FernbedienungAction.setCameraStream enable) _ =>
      { state := { s with cameras := if enable then DRONE_CAMERAS_CONFIG else [] },
        effects := [FernSupEffect.replyResult callback true],
        exit := false, panics := false }
  | FernSupEvent.command callback FernbedienungAction.halt ioOk =>
      { state := s, effects := [FernSupEffect.replyResult callback ioOk],
        exit := false, panics := false }
  | FernSupEvent.command callback FernbedienungAction.reboot ioOk =>
      { state := s, effects := [FernSupEffect.replyResult callback ioOk],
        exit := false, panics := false }
  | FernSupEvent.command callback (FernbedienungAction.bash action) sendOk =>
      if sendOk then
        { state := s,
          effects := [FernSupEffect.forwardBash s.bashTx callback action],
          exit := false, panics := false }
      else
        { state := s, effects := [FernSupEffect.replyResult callback false],
          exit := false, panics := false }
  | FernSupEvent.command _ (FernbedienungAction.uploadToTemporaryPath _) _ =>
      { state := s, effects := [], exit := false, panics := true }
  | FernSupEvent.command _ FernbedienungAction.getKernelMessages _ =>
      { state := s, effects := [], exit := false, panics := false }
  | FernSupEvent.command _ FernbedienungAction.identify _ =>
      { state := s, effects := [], exit := false, panics := false }
  | FernSupEvent.mailboxClosed =>
      { state := s, effects := [], exit := true, panics := false }
  | FernSupEvent.bashCompleted =>
      { state := { s with bashTx := s.nextId, nextId := s.nextId + 1 },
        effects := [], exit := false, panics := false }

/-- Claim C4: a terminal health-probe error makes the link supervisor task
exit (the xbee supervisor propagates it from either probe with `?`, the
fernbedienung supervisor breaks on a link-strength error); on the
completion of such a task the drone actor clears that link's state to
Unassociated, emits the connectivity-down Update, and itself keeps
running. -/
theorem C4_probe_error_propagates_link_down (xs : XbeeSupState)
    (fs : FernSupState) (s : DroneState) (r : Except Unit Unit) :
    (xbeeSupStep xs (XbeeSupEvent.linkMargin (Except.error ()))).exit =
      some (Except.error ()) ∧
    (xbeeSupStep xs (XbeeSupEvent.pinStates (Except.error ()))).exit =
      some (Except.error ()) ∧
    (fernSupStep fs (FernSupEvent.linkStrength (Except.error ()))).exit = true ∧
    droneStep s (DroneEvent.xbeeCompleted r) =
      { state := { s with xbeeTx := none, xbeeAddr := none, xbeeTask := none },
        effects := [DroneEffect.sendUpdate Update.xbeeDisconnected],
        exits := false } ∧
    droneStep s DroneEvent.fernbedienungCompleted =
      { state := { s with fernbedienungTx := none, fernbedienungAddr := none,
                          fernbedienungTask := none },
        effects := [DroneEffect.sendUpdate Update.fernbedienungDisconnected],
        exits := false } := by
  exact ⟨rfl, rfl, rfl, rfl, rfl⟩

/-- Claim C5: when a Protocol Bridge task completes (mavlink under the xbee
supervisor, bash under the fernbedienung supervisor), the very same loop
iteration restarts it with a freshly created command channel, and the
supervisor does not exit; the freshness hypotheses say the current channel
identity is older than the next fresh one. -/
theorem C5_bridge_restarted_same_iteration (xs : XbeeSupState)
    (fs : FernSupState) (r : Except Unit Unit)
    (hx : xs.mavlinkTx < xs.nextId) (hb : fs.bashTx < fs.nextId) :
    (xbeeSupStep xs (XbeeSupEvent.mavlinkCompleted r)).exit = none ∧
    (xbeeSupStep xs (XbeeSupEvent.mavlinkCompleted r)).state.mavlinkTx =
      xs.nextId ∧
    (xbeeSupStep xs (XbeeSupEvent.mavlinkCompleted r)).state.mavlinkTx ≠
      xs.mavlinkTx ∧
    (fernSupStep fs FernSupEvent.bashCompleted).exit = false ∧
    (fernSupStep fs FernSupEvent.bashCompleted).state.bashTx = fs.nextId ∧
    (fernSupStep fs FernSupEvent.bashCompleted).state.bashTx ≠ fs.bashTx := by
  refine ⟨rfl, rfl, ?_, rfl, rfl, ?_⟩
  · simp only [xbeeSupStep]
    omega
  · simp only [fernSupStep]
    omega

/-- Claim C5 witness: the theorem applied to supervisors whose current
bridge channel is 0 and whose next fresh identity is 1. -/
theorem C5_bridge_restarted_same_iteration_witness :
    (xbeeSupStep { mavlinkTx := 0, nextId := 1 }
        (XbeeSupEvent.mavlinkCompleted (Except.ok ()))).exit = none ∧
    (xbeeSupStep { mavlinkTx := 0, nextId := 1 }
        (XbeeSupEvent.mavlinkCompleted (Except.ok ()))).state.mavlinkTx ≠ 0 ∧
    (fernSupStep { bashTx := 0, cameras := [], nextId := 1 }
        FernSupEvent.bashCompleted).state.bashTx ≠ 0 := by
  have h := C5_bridge_restarted_same_iteration { mavlinkTx := 0, nextId := 1 }
    { bashTx := 0, cameras := [], nextId := 1 } (Except.ok ())
    (by norm_num) (by norm_num)
  exact ⟨h.1, h.2.2.1, h.2.2.2.2.2⟩

/- ------------------------------------------------------------------
   MAVLink serial bridge (drone/task.rs, `async fn mavlink`): after
   connecting to the serial communication service it multiplexes the
   throttled heartbeat stream, its command channel and the inbound frame
   stream.  `TerminalAction::Run` pads the command bytes with zeros to a
   fixed width of 70 and transmits them; Start and Stop are ignored; the
   command's reply slot is dropped in every case.
   ------------------------------------------------------------------ -/

/-- `command.as_bytes().iter().cloned().chain(repeat(0u8)).take(70)`. -/
def mavlinkPaddedCommand (command : String) : List Nat :=
  ((String.toUTF8 command).data.toList.map UInt8.toNat ++
    List.replicate 70 0).take 70

structure MavlinkState : Type where
  sequence : Nat
deriving DecidableEq

inductive MavlinkEvent : Type
  | heartbeatTick
  | command (callback : Nat) (action : TerminalAction) (sinkOk : Bool)
  | inboundHeartbeat
  | inboundBatteryStatus (voltage0 : ℚ)
  | inboundSerialControl

inductive MavlinkEffect : Type
  | sendHeartbeat
  | sendSerialControl (payload : List Nat)
  | sendUpdate (u : Update)
  | replyResult (callback : Nat) (ok : Bool)
deriving DecidableEq

structure MavlinkStep : Type where
  state : MavlinkState
  effects : List MavlinkEffect
deriving DecidableEq

/-- One iteration of the mavlink bridge's main loop.  `sinkOk` is the
outcome of `sink.send` for a transmitted serial-control frame; the u8
`mavlink_sequence` wraps with `wrapping_add`. -/
def mavlinkStep (s : MavlinkState) : MavlinkEvent → MavlinkStep
  | MavlinkEvent.heartbeatTick =>
      { state := s, effects := [MavlinkEffect.sendHeartbeat] }
  | MavlinkEvent.command _ TerminalAction.start _ =>
      { state := s, effects := [] }
  | MavlinkEvent.command _ TerminalAction.stop _ =>
      { state := s, effects := [] }
  | MavlinkEvent.command _ (TerminalAction.run command) sinkOk =>
      { state := if sinkOk then { sequence := (s.sequence + 1) % 256 } else s,
        effects := [MavlinkEffect.sendSerialControl (mavlinkPaddedCommand command)] }
  | MavlinkEvent.inboundHeartbeat => { state := s, effects := [] }
  | MavlinkEvent.inboundBatteryStatus voltage0 =>
      { state := s,
        effects := [MavlinkEffect.sendUpdate
          (Update.battery (batteryPercent voltage0))] }
  | MavlinkEvent.inboundSerialControl => { state := s, effects := [] }

/- ------------------------------------------------------------------
   Bash shell bridge (drone/task.rs, `async fn bash`): idle until a Start
   command opens a remote bash process with stdin/stdout/stderr channels
   and a terminate handle; Run writes to stdin; Stop takes and fires the
   terminate handle; a completed process resets the bridge to idle.  No
   command's reply slot is ever fulfilled.
   ------------------------------------------------------------------ -/

structure BashState : Type where
  stdin : Option Nat
  terminate : Option Nat
  nextId : Nat
deriving DecidableEq

inductive BashEvent : Type
  | command (callback : Nat) (action : TerminalAction)
  | processCompleted
  | stdoutChunk (data : String)
  | stderrChunk (data : String)
deriving DecidableEq

inductive BashEffect : Type
  | startProcess
  | stdinWrite (channel : Nat) (data : String)
  | terminateSignal (channel : Nat)
  | sendUpdate (u : Update)
  | replyResult (callback : Nat) (ok : Bool)
deriving DecidableEq

structure BashStep : Type where
  state : BashState
  effects : List BashEffect
deriving DecidableEq

/-- One iteration of the bash bridge's main loop. -/
def bashStep (s : BashState) : BashEvent → BashStep
  | BashEvent.command _ TerminalAction.start =>
      { state := { stdin := some s.nextId, terminate := some (s.nextId + 1),
                   nextId := s.nextId + 2 },
        effects := [BashEffect.startProcess] }
  | BashEvent.command _ (TerminalAction.run command) =>
      { state := s,
        effects := s.stdin.elim []
          fun channel => [BashEffect.stdinWrite channel (command ++ "\r")] }
  | BashEvent.command _ TerminalAction.stop =>
      { state := { s with terminate := none },
        effects := s.terminate.elim []
          fun channel => [BashEffect.terminateSignal channel] }
  | BashEvent.processCompleted =>
      { state := { s with stdin := none, terminate := none }, effects := [] }
  | BashEvent.stdoutChunk data =>
      { state := s, effects := [BashEffect.sendUpdate (Update.bash data)] }
  | BashEvent.stderrChunk data =>
      { state := s, effects := [BashEffect.sendUpdate (Update.bash data)] }

/-- Reply-slot fulfilments among the mavlink bridge's effects. -/
def MavlinkEffect.isReply : MavlinkEffect → Bool
  | MavlinkEffect.replyResult _ _ => true
  | _ => false

/-- Reply-slot fulfilments among the bash bridge's effects. -/
def BashEffect.isReply : BashEffect → Bool
  | BashEffect.replyResult _ _ => true
  | _ => false

/-- Claim C10: neither bridge ever fulfils the reply slot of a forwarded
TerminalAction — for every command the effects of the handling iteration
contain no reply-slot fulfilment, so the caller always observes the slot
being dropped. -/
theorem C10_terminal_reply_dropped (ms : MavlinkState) (bs : BashState)
    (callback : Nat) (action : TerminalAction) (sinkOk : Bool) :
    ((mavlinkStep ms (MavlinkEvent.command callback action sinkOk)).effects.all
      fun e => !e.isReply) = true ∧
    ((bashStep bs (BashEvent.command callback action)).effects.all
      fun e => !e.isReply) = true := by
  constructor
  · cases action <;> simp [mavlinkStep, MavlinkEffect.isReply]
  · cases action with
    | start => simp [bashStep, BashEffect.isReply]
    | run command =>
        cases h : bs.stdin <;>
          simp [bashStep, h, BashEffect.isReply]
    | stop =>
        cases h : bs.terminate <;>
          simp [bashStep, h, BashEffect.isReply]

end Supervisor
